import Mathlib

/-!
Shallow embedding of the `shutdown` Go package (mheck136/ws-shutdown),
file `shutdown.go`: the quiescence coordinator (`Shutdowner`) with its
operations `addActiveConnection` (TryEnter), `removeActiveConnection`
(Exit), `Middleware`, `Shutdown` (BeginShutdownAndWait) and
`ShutdownWithServer` (the join combinator).

Modelling conventions:
  * A Go `chan struct {}` used only as a one-shot close signal is modelled
    by `Option ChanSt`: `none` is the nil channel of a zero-value struct,
    `some .opened` a live channel, `some .closedC` a closed one.
    `close` on a nil or already-closed channel panics in Go; panic is
    modelled by `Option` results (`none` = panic).
  * The mutex makes every critical section atomic, so each locked block
    becomes one pure state transition.
  * The blocking `select` in `Shutdown` is modelled by the set of outcomes
    it can resolve to in a given state (`waitOutcomes`): it can return
    success only when the channel is closed, can return the context error
    only when the context is done, and blocks when neither holds.
-/

namespace WsShutdown

/-- State of a non-nil Go channel used as a close-only signal. -/
inductive ChanSt where
  | opened : ChanSt
  | closedC : ChanSt
deriving DecidableEq

/-- A Go channel reference; `none` models a nil channel. -/
abbrev Chan := Option ChanSt

/-- Go `close(ch)`: succeeds only on a live channel; `close` of a nil or
already-closed channel panics (modelled as `none`). -/
def closeChan : Chan → Option Chan
  | some ChanSt.opened => some (some ChanSt.closedC)
  | _ => none

/-- The `Shutdowner` struct of `shutdown.go` (the `sync.Mutex` field is
implicit in the atomicity of each transition). `activeConnections` is a Go
`int`, modelled as `Int`. -/
structure Shutdowner where
  closed : Chan
  shutdownRequested : Bool
  activeConnections : Int
deriving DecidableEq

/-- The zero value `var s shutdown.Shutdowner`: nil channel, false, 0. -/
def zeroShutdowner : Shutdowner :=
  { closed := none, shutdownRequested := false, activeConnections := 0 }

/-- `NewShutdowner()`: a fresh live channel, no shutdown requested,
zero active connections. -/
def NewShutdowner : Shutdowner :=
  { closed := some ChanSt.opened, shutdownRequested := false
    activeConnections := 0 }

/-- `addActiveConnection` (TryEnter): under the lock, if shutdown was
requested return false without mutation, else increment the counter and
return true. -/
def addActiveConnection (g : Shutdowner) : Bool × Shutdowner :=
  if g.shutdownRequested then (false, g)
  else (true, { g with activeConnections := g.activeConnections + 1 })

/-- `removeActiveConnection` (Exit): under the lock, decrement the counter;
if shutdown was requested and the counter is now 0, close the channel
(which panics if the channel is nil or already closed). -/
def removeActiveConnection (g : Shutdowner) : Option Shutdowner :=
  let a := g.activeConnections - 1
  if g.shutdownRequested ∧ a = 0 then
    (closeChan g.closed).map fun c =>
      { g with activeConnections := a, closed := c }
  else
    some { g with activeConnections := a }

/-- The locked first half of `Shutdown`: set `shutdownRequested := true`;
if the counter is 0, close the channel (panics if it is nil or already
closed). -/
def shutdownBegin (g : Shutdowner) : Option Shutdowner :=
  let g1 : Shutdowner := { g with shutdownRequested := true }
  if g1.activeConnections = 0 then
    (closeChan g1.closed).map fun c => { g1 with closed := c }
  else
    some g1

/-- Outcome of the `select` at the end of `Shutdown`. -/
inductive WaitRes where
  | success : WaitRes
  | ctxError : WaitRes
deriving DecidableEq

/-- Possible resolutions of `select { case <-g.closed; case <-ctx.Done() }`
in a given state: receiving from a closed channel is always ready, the
context branch is ready iff the context is done, and an empty list means
the select blocks (to be re-examined after further events). -/
def waitOutcomes (g : Shutdowner) (ctxDone : Bool) : List WaitRes :=
  (if g.closed = some ChanSt.closedC then [WaitRes.success] else []) ++
  (if ctxDone then [WaitRes.ctxError] else [])

/-- `Shutdown(ctx)` (BeginShutdownAndWait): the locked initiation step
followed by the select; `none` is a panic in the initiation step. The
returned list holds the outcomes the select can resolve to immediately. -/
def Shutdown (g : Shutdowner) (ctxDone : Bool) :
    Option (Shutdowner × List WaitRes) :=
  (shutdownBegin g).map fun g1 => (g1, waitOutcomes g1 ctxDone)

/-- Iterated successful admissions: runs `addActiveConnection` the given
number of times, reporting the final state and whether every call
returned true. -/
def applyEnters : Shutdowner → Nat → Shutdowner × Bool
  | g, 0 => (g, true)
  | g, n + 1 =>
    let p := addActiveConnection g
    let q := applyEnters p.2 n
    (q.1, p.1 && q.2)

/-- Iterated exits: runs `removeActiveConnection` the given number of
times; `none` if any of them panics. -/
def applyExits : Shutdowner → Nat → Option Shutdowner
  | g, 0 => some g
  | g, n + 1 => (removeActiveConnection g).bind fun g1 => applyExits g1 n

/-- A call made against the coordinator: TryEnter, Exit, or the
initiation step of BeginShutdownAndWait. -/
inductive Event where
  | enterEv : Event
  | exitEv : Event
  | shutdownEv : Event
deriving DecidableEq

/-- Coordinator state together with the bookkeeping the caller contract
speaks about: how many TryEnter calls returned true and how many Exit
calls were made. -/
structure RunAcc where
  st : Shutdowner
  admitted : Nat
  exited : Nat
deriving DecidableEq

/-- One call against the coordinator; `none` is a panic. -/
def stepEv (a : RunAcc) : Event → Option RunAcc
  | Event.enterEv =>
    let p := addActiveConnection a.st
    some ⟨p.2, a.admitted + (if p.1 then 1 else 0), a.exited⟩
  | Event.exitEv =>
    (removeActiveConnection a.st).map fun g1 => ⟨g1, a.admitted, a.exited + 1⟩
  | Event.shutdownEv =>
    (shutdownBegin a.st).map fun g1 => ⟨g1, a.admitted, a.exited⟩

/-- A sequence of calls against the coordinator. -/
def runEvents : RunAcc → List Event → Option RunAcc
  | a, [] => some a
  | a, e :: es => (stepEv a e).bind fun a1 => runEvents a1 es

/-- Go `http.StatusServiceUnavailable`. -/
def StatusServiceUnavailable : Nat := 503

/-- An `http.ResponseWriter`, reduced to the trace of `WriteHeader`
calls made on it. -/
structure Response where
  statuses : List Nat
deriving DecidableEq

/-- Go `w.WriteHeader(code)`. -/
def writeHeader (w : Response) (code : Nat) : Response :=
  { statuses := w.statuses ++ [code] }

/-- Result of one run of the handler produced by `Middleware`: the
coordinator state on return, the response written, and whether the run
terminates by (re-)panicking. -/
structure MidResult where
  st : Shutdowner
  resp : Response
  panicked : Bool
deriving DecidableEq

/-- `Middleware(next)` of `shutdown.go`: the wrapped handler calls
`addActiveConnection`; on false it writes 503 and returns without calling
`next`; on true it defers `removeActiveConnection` — which therefore runs
whether `next` returns normally or panics — and calls `next`. The inner
handler `next` is any function from the response written so far to the
response it leaves plus a panic flag; an outer `none` is a panic inside
`removeActiveConnection` itself. -/
def Middleware (g : Shutdowner) (next : Response → Response × Bool)
    (w : Response) : Option MidResult :=
  let p := addActiveConnection g
  if p.1 then
    let r := next w
    (removeActiveConnection p.2).map fun g2 => ⟨g2, r.1, r.2⟩
  else
    some ⟨p.2, writeHeader w StatusServiceUnavailable, false⟩

/-- A Go `error` value: the two context errors, opaque other errors, and
the wrapper built by `errors.Join`. -/
inductive GoError where
  | deadlineExceeded : GoError
  | canceled : GoError
  | errCode : Nat → GoError
  | joined : List GoError → GoError

/-- Go `errors.Join`: discards nil arguments; yields nil when none
remain, otherwise one error wrapping the list of non-nil arguments in
order, each of them retrievable from the wrapper. -/
def errorsJoin (es : List (Option GoError)) : Option GoError :=
  let r := es.filterMap id
  if r.isEmpty then none else some (GoError.joined r)

/-- Result of the coordinator's `Shutdown` as a Go error: nil on success,
the context's error when the context won the select. -/
def waitResErr (ctxErr : GoError) : WaitRes → Option GoError
  | WaitRes.success => none
  | WaitRes.ctxError => some ctxErr

/-- `ShutdownWithServer` of `shutdown.go`: `server.Shutdown(ctx)` and
`g.Shutdown(ctx)` run in parallel and both are awaited (`wg.Wait`), so
both results reach the final line; the server's error and the outcome the
coordinator's wait resolved to are taken as parameters, and the function
returns `errors.Join(serverErr, shutdownerErr)`. -/
def ShutdownWithServer (serverErr : Option GoError)
    (shutdownerRes : WaitRes) (ctxErr : GoError) : Option GoError :=
  errorsJoin [serverErr, waitResErr ctxErr shutdownerRes]

end WsShutdown

namespace WsShutdown

/-- Claim C1: `addActiveConnection` returns false and leaves the whole
state unchanged when `shutdownRequested` is true, and otherwise returns
true and increments `activeConnections` by exactly one, touching nothing
else. -/
theorem tryEnter_spec (g : Shutdowner) :
    (g.shutdownRequested = true → addActiveConnection g = (false, g)) ∧
    (g.shutdownRequested = false →
      (addActiveConnection g).1 = true ∧
      (addActiveConnection g).2.activeConnections
        = g.activeConnections + 1 ∧
      (addActiveConnection g).2.shutdownRequested = false ∧
      (addActiveConnection g).2.closed = g.closed) := by
  constructor
  · intro h
    simp [addActiveConnection, h]
  · intro h
    simp [addActiveConnection, h]

/-- Witness for C1: both branches of `tryEnter_spec` evaluated at concrete
states. -/
theorem tryEnter_spec_witness :
    addActiveConnection
        { closed := some ChanSt.opened, shutdownRequested := true
          activeConnections := 3 }
      = (false,
        { closed := some ChanSt.opened, shutdownRequested := true
          activeConnections := 3 }) ∧
    (addActiveConnection NewShutdowner).1 = true ∧
    (addActiveConnection NewShutdowner).2.activeConnections = 1 := by
  refine ⟨(tryEnter_spec _).1 rfl, ?_, ?_⟩
  · exact ((tryEnter_spec NewShutdowner).2 rfl).1
  · have h := ((tryEnter_spec NewShutdowner).2 rfl).2.1
    simpa [NewShutdowner] using h

/-- Claim C2: in any state reachable under the caller contract when an
Exit is legal (at least one connection active, signal not yet fired),
`removeActiveConnection` succeeds, decrements the counter by exactly one,
leaves `shutdownRequested` alone, and closes the channel precisely when
shutdown was requested and the decremented counter is 0; otherwise the
channel stays open (the signal does not fire). -/
theorem exit_spec (g : Shutdowner)
    (_h1 : 1 ≤ g.activeConnections) (h2 : g.closed = some ChanSt.opened) :
    ∃ g1, removeActiveConnection g = some g1 ∧
      g1.activeConnections = g.activeConnections - 1 ∧
      g1.shutdownRequested = g.shutdownRequested ∧
      (g1.closed = some ChanSt.closedC ↔
        g.shutdownRequested = true ∧ g.activeConnections - 1 = 0) ∧
      (¬(g.shutdownRequested = true ∧ g.activeConnections - 1 = 0) →
        g1.closed = some ChanSt.opened) := by
  by_cases hc : g.shutdownRequested = true ∧ g.activeConnections - 1 = 0
  · refine ⟨⟨some ChanSt.closedC, g.shutdownRequested,
        g.activeConnections - 1⟩, ?_, rfl, rfl, ?_, ?_⟩
    · simp [removeActiveConnection, hc.1, hc.2, h2, closeChan]
    · simpa using hc
    · intro h
      exact absurd hc h
  · refine ⟨⟨some ChanSt.opened, g.shutdownRequested,
        g.activeConnections - 1⟩, ?_, rfl, rfl, ?_, ?_⟩
    · simp only [removeActiveConnection]
      rw [if_neg]
      · simp [h2]
      · simpa using hc
    · simp [hc]
    · intro _
      rfl

/-- Witness for C2: one exit from two active connections under shutdown
does not fire the signal; the exit from one active connection does. -/
theorem exit_spec_witness :
    (∃ g1, removeActiveConnection
        { closed := some ChanSt.opened, shutdownRequested := true
          activeConnections := 2 } = some g1 ∧
      g1.activeConnections = 1 ∧ g1.closed = some ChanSt.opened) ∧
    (∃ g2, removeActiveConnection
        { closed := some ChanSt.opened, shutdownRequested := true
          activeConnections := 1 } = some g2 ∧
      g2.activeConnections = 0 ∧ g2.closed = some ChanSt.closedC) := by
  constructor
  · obtain ⟨g1, hrun, hcnt, _, _, hopen⟩ :=
      exit_spec
        { closed := some ChanSt.opened, shutdownRequested := true
          activeConnections := 2 } (by decide) rfl
    exact ⟨g1, hrun, by simpa using hcnt, hopen (by decide)⟩
  · obtain ⟨g2, hrun, hcnt, _, hiff, _⟩ :=
      exit_spec
        { closed := some ChanSt.opened, shutdownRequested := true
          activeConnections := 1 } (by decide) rfl
    exact ⟨g2, hrun, by simpa using hcnt, hiff.2 (by decide)⟩

/-- Claim C6: if `Shutdown` is initiated in a state with no active
connections and a signal that has not yet fired, it closes the channel
immediately and the select resolves at once to success (and only success)
for a context that is not yet done. -/
theorem shutdown_immediate (g : Shutdowner)
    (h0 : g.activeConnections = 0) (h2 : g.closed = some ChanSt.opened) :
    Shutdown g false = some
      ({ g with shutdownRequested := true, closed := some ChanSt.closedC },
        [WaitRes.success]) := by
  simp [Shutdown, shutdownBegin, h0, h2, closeChan, waitOutcomes]

/-- Witness for C6: `Shutdown` on a fresh coordinator returns success at
once. -/
theorem shutdown_immediate_witness :
    Shutdown NewShutdowner false = some
      ({ closed := some ChanSt.closedC, shutdownRequested := true,
          activeConnections := 0 }, [WaitRes.success]) :=
  shutdown_immediate NewShutdowner rfl rfl

theorem applyExits_add (a b : Nat) : ∀ g : Shutdowner,
    applyExits g (a + b) = (applyExits g a).bind fun g1 => applyExits g1 b := by
  induction a with
  | zero =>
    intro g
    simp [applyExits]
  | succ n ih =>
    intro g
    have hab : n + 1 + b = (n + b) + 1 := by omega
    rw [hab]
    simp only [applyExits]
    cases removeActiveConnection g with
    | none => simp
    | some g1 => simp [ih g1]

/-- While more connections remain active than exits performed, draining
keeps the channel open and just counts down. -/
theorem exitsKeepOpen (k : Nat) : ∀ c : Int, (k : Int) < c →
    applyExits ⟨some ChanSt.opened, true, c⟩ k
      = some ⟨some ChanSt.opened, true, c - k⟩ := by
  induction k with
  | zero =>
    intro c _
    simp [applyExits]
  | succ n ih =>
    intro c hc
    have hne : ¬(c - 1 = 0) := by
      push_cast at hc
      omega
    have h1 : removeActiveConnection ⟨some ChanSt.opened, true, c⟩
        = some ⟨some ChanSt.opened, true, c - 1⟩ := by
      simp [removeActiveConnection, hne]
    have h2 := ih (c - 1) (by push_cast at hc ⊢; omega)
    simp only [applyExits, h1, Option.some_bind]
    rw [h2]
    have h3 : c - 1 - (n : Int) = c - ((n + 1 : Nat) : Int) := by
      push_cast
      ring
    rw [h3]

/-- Draining exactly as many times as there are active connections closes
the channel and ends at zero. -/
theorem exitsFull (m : Nat) (hm : 1 ≤ m) :
    applyExits ⟨some ChanSt.opened, true, (m : Int)⟩ m
      = some ⟨some ChanSt.closedC, true, 0⟩ := by
  obtain ⟨k, rfl⟩ : ∃ k, m = k + 1 := ⟨m - 1, by omega⟩
  rw [applyExits_add k 1]
  rw [exitsKeepOpen k ((k + 1 : Nat) : Int) (by push_cast; omega)]
  have hc : ((k + 1 : Nat) : Int) - (k : Nat) = 1 := by
    push_cast
    ring
  rw [hc]
  simp [applyExits, removeActiveConnection, closeChan]

/-- While no shutdown was requested, every admission succeeds and each
increments the counter. -/
theorem entersAllAdmitted (n : Nat) : ∀ g : Shutdowner,
    g.shutdownRequested = false →
    applyEnters g n
      = (⟨g.closed, false, g.activeConnections + n⟩, true) := by
  induction n with
  | zero =>
    intro g hg
    cases g
    simp_all [applyEnters]
  | succ n ih =>
    intro g hg
    simp only [applyEnters, addActiveConnection, hg]
    simp only [Bool.false_eq_true, if_false]
    rw [ih ⟨g.closed, false, g.activeConnections + 1⟩ rfl]
    have h3 : g.activeConnections + 1 + (n : Int)
        = g.activeConnections + ((n + 1 : Nat) : Int) := by
      push_cast
      ring
    simp [h3]

/-- Claim C3: after `N ≥ 1` admissions from a fresh coordinator (all of
which succeed) and the shutdown initiation, the select can resolve to
success precisely when all `N` exits have happened: after any `k ≤ N`
exits, success is an available outcome iff `k = N` (exits are
indistinguishable, so this covers every interleaving order). -/
theorem shutdown_waits_for_all_exits (N k : Nat) (hN : 1 ≤ N) (hk : k ≤ N)
    (ctxDone : Bool) :
    applyEnters NewShutdowner N
      = (⟨some ChanSt.opened, false, (N : Int)⟩, true) ∧
    shutdownBegin ⟨some ChanSt.opened, false, (N : Int)⟩
      = some ⟨some ChanSt.opened, true, (N : Int)⟩ ∧
    ∃ gk, applyExits ⟨some ChanSt.opened, true, (N : Int)⟩ k = some gk ∧
      (WaitRes.success ∈ waitOutcomes gk ctxDone ↔ k = N) := by
  refine ⟨?_, ?_, ?_⟩
  · rw [entersAllAdmitted N NewShutdowner rfl]
    simp [NewShutdowner]
  · have hne : ¬((N : Int) = 0) := by omega
    simp [shutdownBegin, hne]
  · by_cases hkN : k = N
    · subst hkN
      refine ⟨⟨some ChanSt.closedC, true, 0⟩, exitsFull k hN, ?_⟩
      cases ctxDone <;> simp [waitOutcomes]
    · have hlt : (k : Int) < (N : Int) := by omega
      refine ⟨⟨some ChanSt.opened, true, (N : Int) - k⟩,
        exitsKeepOpen k (N : Int) hlt, ?_⟩
      cases ctxDone <;> simp [waitOutcomes, hkN]

/-- Witness for C3: with two admitted operations, after one exit success
is not yet available; the theorem instantiated at `N = 2`, `k = 1`. -/
theorem shutdown_waits_for_all_exits_witness :
    ∃ gk, applyExits ⟨some ChanSt.opened, true, (2 : Int)⟩ 1 = some gk ∧
      (WaitRes.success ∈ waitOutcomes gk true ↔ (1 : Nat) = 2) :=
  (shutdown_waits_for_all_exits 2 1 (by decide) (by decide) true).2.2

/-- Counterexample to claim C4 as stated: on a fresh coordinator the
first `Shutdown` succeeds immediately (quiescence reached, signal fired),
and a repeated `Shutdown` call panics — close of an already-closed
channel — instead of returning an outcome. -/
theorem repeated_shutdown_cex :
    Shutdown NewShutdowner false
      = some (⟨some ChanSt.closedC, true, 0⟩, [WaitRes.success]) ∧
    Shutdown ⟨some ChanSt.closedC, true, 0⟩ false = none := by
  constructor <;> rfl

/-- Amended claim C4: a repeated `Shutdown` call again sets the (already
true) `shutdownRequested` flag, does not crash, and follows the first
call's contract whenever some connection is still active at that moment;
but when `activeConnections` is 0 — in particular whenever quiescence has
been reached and the signal already fired — the repeated call panics by
closing the already-closed channel. -/
theorem repeated_shutdown_amended (g : Shutdowner) (ctxDone : Bool)
    (hreq : g.shutdownRequested = true) :
    (g.activeConnections ≠ 0 →
      Shutdown g ctxDone = some (g, waitOutcomes g ctxDone)) ∧
    (g.activeConnections = 0 → g.closed = some ChanSt.closedC →
      Shutdown g ctxDone = none) := by
  constructor
  · intro hne
    have heta : ({ g with shutdownRequested := true } : Shutdowner) = g := by
      cases g
      simp_all
    simp [Shutdown, shutdownBegin, heta, hne]
  · intro h0 hcl
    simp [Shutdown, shutdownBegin, h0, hcl, closeChan]

/-- Witness for amended C4: a repeated `Shutdown` with one connection
still active is safe and blocks; a repeated `Shutdown` after quiescence
panics. -/
theorem repeated_shutdown_amended_witness :
    Shutdown ⟨some ChanSt.opened, true, 1⟩ false
      = some (⟨some ChanSt.opened, true, 1⟩, []) ∧
    Shutdown ⟨some ChanSt.closedC, true, 0⟩ true = none := by
  constructor
  · have h :=
      (repeated_shutdown_amended ⟨some ChanSt.opened, true, 1⟩ false rfl).1
        (by decide)
    simpa [waitOutcomes] using h
  · exact
      (repeated_shutdown_amended ⟨some ChanSt.closedC, true, 0⟩ true rfl).2
        rfl rfl

/-- Counterexample to claim C5 as stated: one admitted operation; the
first `Shutdown` initiates, and its wait can only resolve to the context
error (deadline exceeded); the operation exits between the two calls,
firing the signal; the later `Shutdown` call with a fresh context then
panics instead of returning success. -/
theorem rewait_cex :
    shutdownBegin ⟨some ChanSt.opened, false, 1⟩
      = some ⟨some ChanSt.opened, true, 1⟩ ∧
    waitOutcomes ⟨some ChanSt.opened, true, 1⟩ true = [WaitRes.ctxError] ∧
    removeActiveConnection ⟨some ChanSt.opened, true, 1⟩
      = some ⟨some ChanSt.closedC, true, 0⟩ ∧
    Shutdown ⟨some ChanSt.closedC, true, 0⟩ false = none := by
  refine ⟨rfl, rfl, rfl, rfl⟩

/-- Amended claim C5: a failed wait does not consume the signal — the
select's resolutions depend only on the channel state, which the failed
wait leaves untouched — so after a deadline-exceeded first `Shutdown`
over `N` admitted operations and `k < N` intervening exits, a later
`Shutdown` with a fresh context is safe, blocks, and resolves to success
once the remaining `N - k` exits occur; if instead all `N` admitted
operations exited between the two calls, the later call panics (see the
counterexample). -/
theorem rewait_amended (N k : Nat) (hk : k < N) :
    shutdownBegin ⟨some ChanSt.opened, false, (N : Int)⟩
      = some ⟨some ChanSt.opened, true, (N : Int)⟩ ∧
    waitOutcomes ⟨some ChanSt.opened, true, (N : Int)⟩ true
      = [WaitRes.ctxError] ∧
    ∃ gk, applyExits ⟨some ChanSt.opened, true, (N : Int)⟩ k = some gk ∧
      Shutdown gk false = some (gk, []) ∧
      ∃ gz, applyExits gk (N - k) = some gz ∧
        waitOutcomes gz false = [WaitRes.success] := by
  refine ⟨?_, ?_, ?_⟩
  · have hne : ¬((N : Int) = 0) := by omega
    simp [shutdownBegin, hne]
  · simp [waitOutcomes]
  · refine ⟨⟨some ChanSt.opened, true, (N : Int) - k⟩,
      exitsKeepOpen k (N : Int) (by omega), ?_, ?_⟩
    · have hne : ¬((N : Int) - k = 0) := by omega
      simp [Shutdown, shutdownBegin, hne, waitOutcomes]
    · have hcast : ((N - k : Nat) : Int) = (N : Int) - (k : Int) := by omega
      refine ⟨⟨some ChanSt.closedC, true, 0⟩, ?_, ?_⟩
      · rw [← hcast]
        exact exitsFull (N - k) (by omega)
      · simp [waitOutcomes]

/-- Witness for amended C5: two admitted operations, one exit between the
calls; the theorem instantiated at `N = 2`, `k = 1`. -/
theorem rewait_amended_witness :
    ∃ gk, applyExits ⟨some ChanSt.opened, true, (2 : Int)⟩ 1 = some gk ∧
      Shutdown gk false = some (gk, []) ∧
      ∃ gz, applyExits gk (2 - 1) = some gz ∧
        waitOutcomes gz false = [WaitRes.success] :=
  (rewait_amended 2 1 (by decide)).2.2

theorem remove_count (g g1 : Shutdowner)
    (h : removeActiveConnection g = some g1) :
    g1.activeConnections = g.activeConnections - 1 := by
  simp only [removeActiveConnection] at h
  split at h
  · cases hcl : closeChan g.closed <;> rw [hcl] at h
    · simp at h
    · simp at h
      rw [← h]
  · simp at h
    rw [← h]

theorem shutdownBegin_count (g g1 : Shutdowner)
    (h : shutdownBegin g = some g1) :
    g1.activeConnections = g.activeConnections := by
  simp only [shutdownBegin] at h
  split at h
  · cases hcl : closeChan g.closed <;> rw [hcl] at h
    · simp at h
    · simp at h
      rw [← h]
  · simp at h
    rw [← h]

/-- The coordinator's counter always equals the running balance of
admissions minus exits: each step preserves
`activeConnections + exited - admitted`. -/
theorem runEvents_balance (tr : List Event) :
    ∀ a b : RunAcc, runEvents a tr = some b →
      b.st.activeConnections + (b.exited : Int) - (b.admitted : Int)
        = a.st.activeConnections + (a.exited : Int) - (a.admitted : Int) := by
  induction tr with
  | nil =>
    intro a b h
    simp only [runEvents, Option.some_inj] at h
    rw [h]
  | cons e es ih =>
    intro a b h
    simp only [runEvents] at h
    cases hse : stepEv a e with
    | none =>
      rw [hse] at h
      simp at h
    | some a1 =>
      rw [hse] at h
      simp only [Option.some_bind] at h
      rw [ih a1 b h]
      cases e with
      | enterEv =>
        simp only [stepEv, addActiveConnection] at hse
        by_cases hreq : a.st.shutdownRequested = true <;>
          (simp [hreq] at hse; rw [← hse]; try (push_cast; ring))
      | exitEv =>
        simp only [stepEv] at hse
        cases hrm : removeActiveConnection a.st <;> rw [hrm] at hse
        · simp at hse
        · simp only [Option.map_some', Option.some_inj] at hse
          rw [← hse]
          have := remove_count a.st _ hrm
          simp only [this]
          push_cast
          ring
      | shutdownEv =>
        simp only [stepEv] at hse
        cases hsb : shutdownBegin a.st <;> rw [hsb] at hse
        · simp at hse
        · simp only [Option.map_some', Option.some_inj] at hse
          rw [← hse]
          have := shutdownBegin_count a.st _ hsb
          simp only [this]

/-- Claim C7: along every call sequence from a fresh coordinator that
respects the caller contract (never more Exits than successful
TryEnters), `activeConnections` is never negative; after any prefix in
which every successful TryEnter has been matched by its Exit, it is
exactly 0. Every prefix of a run is itself a run, so this holds after
every step. -/
theorem count_nonneg (tr : List Event) (b : RunAcc)
    (h : runEvents ⟨NewShutdowner, 0, 0⟩ tr = some b)
    (hcontract : b.exited ≤ b.admitted) :
    0 ≤ b.st.activeConnections ∧
      (b.exited = b.admitted → b.st.activeConnections = 0) := by
  have hbal := runEvents_balance tr ⟨NewShutdowner, 0, 0⟩ b h
  simp only [NewShutdowner] at hbal
  constructor
  · omega
  · intro he
    omega

/-- Witness for C7: the run admit–exit–admit from a fresh coordinator,
with its one unmatched admission, ends with one active connection. -/
theorem count_nonneg_witness :
    0 ≤ (RunAcc.mk ⟨some ChanSt.opened, false, 1⟩ 2 1).st.activeConnections :=
  (count_nonneg [Event.enterEv, Event.exitEv, Event.enterEv]
    ⟨⟨some ChanSt.opened, false, 1⟩, 2, 1⟩ rfl (by decide)).1

/-- Claim C10: the zero-value `Shutdowner` carries a nil channel, so the
first event that must fire the signal — a `Shutdown` call at zero active
connections, or the Exit that brings the count to 0 after shutdown —
panics by closing a nil channel; instances from `NewShutdowner` carry a
live channel on which both signal-firing branches are safe. -/
theorem zero_value_panics :
    zeroShutdowner.closed = none ∧
    NewShutdowner.closed = some ChanSt.opened ∧
    (∀ g : Shutdowner, g.closed = none →
      (g.activeConnections = 0 → shutdownBegin g = none) ∧
      (g.shutdownRequested = true → g.activeConnections = 1 →
        removeActiveConnection g = none)) ∧
    (∀ g : Shutdowner, g.closed = some ChanSt.opened →
      shutdownBegin g ≠ none ∧ removeActiveConnection g ≠ none) := by
  refine ⟨rfl, rfl, ?_, ?_⟩
  · intro g hnil
    constructor
    · intro h0
      simp [shutdownBegin, h0, hnil, closeChan]
    · intro hs h1
      simp [removeActiveConnection, hs, h1, hnil, closeChan]
  · intro g hopen
    constructor
    · by_cases h0 : g.activeConnections = 0 <;>
        simp [shutdownBegin, h0, hopen, closeChan]
    · by_cases hc : g.shutdownRequested = true ∧ g.activeConnections - 1 = 0
      · simp [removeActiveConnection, hc.1, hc.2, hopen, closeChan]
      · simp only [removeActiveConnection]
        rw [if_neg]
        · simp
        · simpa using hc

/-- Witness for C10: the zero value panics on an immediate `Shutdown` and
on the final Exit after shutdown, while `NewShutdowner` does not. -/
theorem zero_value_panics_witness :
    shutdownBegin zeroShutdowner = none ∧
    removeActiveConnection
      { closed := none, shutdownRequested := true
        activeConnections := 1 } = none ∧
    shutdownBegin NewShutdowner ≠ none :=
  ⟨(zero_value_panics.2.2.1 zeroShutdowner rfl).1 rfl,
    (zero_value_panics.2.2.1
      { closed := none, shutdownRequested := true
        activeConnections := 1 } rfl).2 rfl rfl,
    (zero_value_panics.2.2.2 NewShutdowner rfl).1⟩

/-- Claim C8: when TryEnter is refused the wrapped handler writes 503 and
returns — the result does not depend on `next` at all and the coordinator
state (in particular `activeConnections`) is untouched; when TryEnter is
granted the inner handler runs and `removeActiveConnection` runs exactly
once on every termination path, normal return or panic alike, leaving the
coordinator state exactly as before the request. -/
theorem middleware_spec (g : Shutdowner) (next : Response → Response × Bool)
    (w : Response) :
    (g.shutdownRequested = true →
      Middleware g next w
        = some ⟨g, writeHeader w StatusServiceUnavailable, false⟩) ∧
    (g.shutdownRequested = false →
      Middleware g next w = some ⟨g, (next w).1, (next w).2⟩) := by
  constructor
  · intro h
    simp [Middleware, addActiveConnection, h]
  · intro h
    have hrm : removeActiveConnection
        ⟨g.closed, g.shutdownRequested, g.activeConnections + 1⟩
        = some ⟨g.closed, g.shutdownRequested, g.activeConnections⟩ := by
      rw [removeActiveConnection]
      rw [if_neg]
      · simp
      · simp [h]
    simp [Middleware, addActiveConnection, h] at hrm ⊢
    rw [hrm, ← h]

/-- Witness for C8: a rejected request on a quiescent coordinator gets
503 regardless of the inner handler; an admitted request whose handler
writes 200 and then panics still restores the counter, and the panic
propagates. -/
theorem middleware_spec_witness :
    Middleware ⟨some ChanSt.closedC, true, 0⟩
        (fun w => (writeHeader w 200, true)) ⟨[]⟩
      = some ⟨⟨some ChanSt.closedC, true, 0⟩, ⟨[503]⟩, false⟩ ∧
    Middleware NewShutdowner (fun w => (writeHeader w 200, true)) ⟨[]⟩
      = some ⟨NewShutdowner, ⟨[200]⟩, true⟩ := by
  constructor
  · have h := (middleware_spec ⟨some ChanSt.closedC, true, 0⟩
      (fun w => (writeHeader w 200, true)) ⟨[]⟩).1 rfl
    simpa [writeHeader, StatusServiceUnavailable] using h
  · have h := (middleware_spec NewShutdowner
      (fun w => (writeHeader w 200, true)) ⟨[]⟩).2 rfl
    simpa [writeHeader] using h

/-- Claim C9: the join combinator's aggregate preserves the error of each
side: with both sides failing, the result wraps both errors in order
(neither is discarded, each inspectable in the wrapped list); with one
side failing, that error alone is wrapped; with neither failing, the
result is nil. -/
theorem shutdownWithServer_spec (e ctxErr : GoError) :
    ShutdownWithServer none WaitRes.success ctxErr = none ∧
    ShutdownWithServer (some e) WaitRes.ctxError ctxErr
      = some (GoError.joined [e, ctxErr]) ∧
    ShutdownWithServer (some e) WaitRes.success ctxErr
      = some (GoError.joined [e]) ∧
    ShutdownWithServer none WaitRes.ctxError ctxErr
      = some (GoError.joined [ctxErr]) :=
  ⟨rfl, rfl, rfl, rfl⟩

end WsShutdown
